import Mathlib

/-!
# Verification of the GlobalMind summarization orchestration engine

Shallow embedding of the summarization core of the repository
(`backend/core/agentic_summarizer.py` and the pieces of
`backend/core/ai_summarizer.py` that the claims reference), together with
proofs settling the frozen claims about it.

Modelling conventions:
* Python strings are embedded as `List Char` (`Str`); `str.lower()` is
  embedded with `Char.toLower` (ASCII case mapping; the Indic code points
  the repository handles are case-invariant under both).
* Python floats are embedded as rationals (`ℚ`); all the scores in the
  source are built from small decimal literals and divisions.
* Python dicts used as stage contexts appear twice, at the two levels the
  claims need: a generic string-keyed dictionary (`PyDict`) for the claims
  about the workflow composition primitives, and a typed record (`Ctx`)
  for the claims about the fixed summarization pipeline (whose stages read
  and write a fixed key set).
* Mutable state shared between asyncio tasks (the nested values that
  `dict.copy()` does not copy) is embedded as an explicit state component
  `σ` threaded through the children in their scheduling order: the
  children of `ParallelAgent.run_async` contain no internal await points,
  so the event loop runs each created task to completion in creation
  order.
* Exceptions are embedded as `Except String`.
* Wall-clock timestamp fields (`fetch_timestamp` and friends) are omitted:
  no claim mentions them and no other code reads them.
-/

/-- Python strings as lists of characters. -/
abbrev Str := List Char

/-- Conversion from a Lean string literal. -/
def lit (s : String) : Str := s.toList

/-- The ASCII whitespace characters recognised by Python's `\s` and
`str.split()` / `str.strip()` (the inputs the claims touch contain no
exotic Unicode whitespace). -/
def isPySpace (c : Char) : Bool :=
  c = ' ' || c = '\t' || c = '\n' || c = '\r' || c = '\x0b' || c = '\x0c'

/-- Characters matched by Python's (Unicode-aware) `\w`.  ASCII
alphanumerics and the underscore, plus non-ASCII code points other than
the Indic sentence terminators `।` and `॥` (which are punctuation): an
adequate rendering of `\w` for the scripts this repository processes. -/
def isWordChar (c : Char) : Bool :=
  c.isAlphanum || c = '_' || (128 ≤ c.val && c ≠ '।' && c ≠ '॥')

/-- `re.sub(r'\s+', ' ', text)`: every maximal whitespace run becomes one
space.  The flag records whether we are inside a run. -/
def collapseWSAux : Str → Bool → Str
  | [], _ => []
  | c :: rest, inRun =>
    if isPySpace c then
      if inRun then collapseWSAux rest true else ' ' :: collapseWSAux rest true
    else c :: collapseWSAux rest false

def collapseWS (s : Str) : Str := collapseWSAux s false

/-- Python `str.strip()`. -/
def pyStrip (s : Str) : Str :=
  ((s.dropWhile isPySpace).reverse.dropWhile isPySpace).reverse

/-- Maximal runs of characters satisfying `p`, in order (the shared core
of `str.split()` and `re.findall(r'\w+', ·)`). -/
def runsByAux (p : Char → Bool) : Str → Str → List Str
  | [], acc => if acc.isEmpty then [] else [acc.reverse]
  | c :: rest, acc =>
    if p c then runsByAux p rest (c :: acc)
    else if acc.isEmpty then runsByAux p rest []
    else acc.reverse :: runsByAux p rest []

def runsBy (p : Char → Bool) (s : Str) : List Str := runsByAux p s []

/-- Python `str.split()` with no argument: whitespace-delimited tokens,
no empties. -/
def pyWords (s : Str) : List Str := runsBy (fun c => !isPySpace c) s

/-- `re.findall(r'\w+', s)`. -/
def findWordTokens (s : Str) : List Str := runsBy isWordChar s

/-- Python `str.split(sep)` / `re.split('[...]', s)` on a character
class: split at every matching character, keeping empty pieces. -/
def splitOnPred (p : Char → Bool) : Str → List Str
  | [] => [[]]
  | c :: rest =>
    if p c then [] :: splitOnPred p rest
    else
      match splitOnPred p rest with
      | [] => [[c]]
      | h :: t => (c :: h) :: t

/-- Python `str.lower()`. -/
def lowerStr (s : Str) : Str := s.map Char.toLower

/-- Python substring containment (`needle in hay` on strings). -/
def isSubstring (needle : Str) : Str → Bool
  | [] => needle.isEmpty
  | c :: rest => needle.isPrefixOf (c :: rest) || isSubstring needle rest

/-- Python's builtin `max` on two numbers (returns the first argument on
ties, and reduces in the kernel, unlike the lattice operation). -/
def pyMax (a b : ℚ) : ℚ := if a < b then b else a

/-- Python's builtin `min` on two numbers (returns the first argument on
ties). -/
def pyMin (a b : ℚ) : ℚ := if b < a then b else a

theorem pyMax_eq_max (a b : ℚ) : pyMax a b = max a b := by
  unfold pyMax
  rcases le_or_lt b a with h | h
  · simp [not_lt_of_le h, max_eq_left h]
  · simp [h, max_eq_right h.le]

theorem pyMin_eq_min (a b : ℚ) : pyMin a b = min a b := by
  unfold pyMin
  rcases le_or_lt a b with h | h
  · simp [not_lt_of_le h, min_eq_left h]
  · simp [h, min_eq_right h.le]

/-- Stable descending insertion: `x` is placed before the first element
strictly below it, hence after all earlier elements it ties with. -/
def insDesc (lt : α → α → Bool) (x : α) : List α → List α
  | [] => [x]
  | y :: ys => if lt y x then x :: y :: ys else y :: insDesc lt x ys

/-- Stable descending sort (the semantics of Python's
`sorted(..., reverse=True)` / `list.sort(..., reverse=True)`):
`lt a b` means `a`'s key is strictly below `b`'s. -/
def stableSortDesc (lt : α → α → Bool) (l : List α) : List α :=
  l.foldl (fun acc x => insDesc lt x acc) []

/-! ## Workflow composition primitives

`BaseAgent.run_async` has type context → context and may raise; composers
additionally thread the shared mutable state `σ` (see the header). -/

/-- A stage: receives the (top-level) context bindings and the shared
mutable state, returns an outcome and the state it leaves behind.  The
state component is returned even on failure: a Python exception does not
roll back prior mutations. -/
def SeqStage (Γ σ : Type) := Γ → σ → Except String Γ × σ

/-- `SequentialAgent.run_async` (agentic_summarizer.py lines 56-65): run
the children in order, threading the context; there is no `try`/`except`
in the loop, so a child's exception propagates immediately. -/
def seqRun : List (SeqStage Γ σ) → Γ → σ → Except String Γ × σ
  | [], ctx, s => (Except.ok ctx, s)
  | st :: rest, ctx, s =>
    match st ctx s with
    | (Except.ok ctx', s') => seqRun rest ctx' s'
    | (Except.error e, s') => (Except.error e, s')

/-- The collection loop of `ParallelAgent.run_async` (lines 80-97): every
child receives the same incoming bindings `ctx` (its own `context.copy()`),
the shared state is threaded in scheduling order, and each outcome is
recorded under the child's name — a failure is caught per child
(`results[agent_name] = ...`) and never stops the loop. -/
def parCollect : List (String × SeqStage Γ σ) → Γ → σ →
    List (String × Except String Γ) × σ
  | [], _, s => ([], s)
  | (n, st) :: rest, ctx, s =>
    let r := st ctx s
    let tailr := parCollect rest ctx r.2
    ((n, r.1) :: tailr.1, tailr.2)

/-! ### The generic dictionary context -/

/-- Python values as far as the composition-primitive claims need them. -/
inductive PyVal where
  | s : String → PyVal
  | n : Nat → PyVal
  | dict : List (String × PyVal) → PyVal

/-- A stage context as a string-keyed dictionary (insertion ordered). -/
abbrev PyDict := List (String × PyVal)

/-- Python `d[k] = v`: replace in place if the key exists, else append. -/
def setKey (d : PyDict) (k : String) (v : PyVal) : PyDict :=
  if d.any (fun p => p.1 = k) then
    d.map (fun p => if p.1 = k then (k, v) else p)
  else d ++ [(k, v)]

/-- How `ParallelAgent.run_async` records one child's outcome: the
resulting context on success, `\x7b'error': str(e)\x7d` on failure
(lines 91-97). -/
def outcomeVal : Except String PyDict → PyVal
  | Except.ok c => PyVal.dict c
  | Except.error e => PyVal.dict [("error", PyVal.s e)]

/-- `ParallelAgent.run_async` on a dictionary context (lines 73-102):
empty child list returns the context unchanged (line 77-78), otherwise
collect the children's outcomes and merge them back by writing the
`parallel_results` key on the original context (line 100). -/
def parRunDict (children : List (String × SeqStage PyDict σ)) (ctx : PyDict)
    (s : σ) : PyDict × σ :=
  if children.isEmpty then (ctx, s)
  else
    let c := parCollect children ctx s
    (setKey ctx "parallel_results"
      (PyVal.dict (c.1.map (fun p => (p.1, outcomeVal p.2)))), c.2)

/-! ## Data model for the fixed pipeline -/

/-- A retrieved search-result record (`title`/`snippet`/`source`).  The
typed model treats the three keys the code reads (with defaults) as
present. -/
structure SRec where
  title : Str
  snippet : Str
  source : String
deriving Repr, DecidableEq

/-- A processed result as produced by `DataFetcherAgent` (lines 126-132). -/
structure PRec where
  title : Str
  snippet : Str
  source : String
  position : Nat
  relevance_score : ℚ
deriving Repr, DecidableEq

/-- A scored sentence as produced by `ContentAnalyzerAgent`
(lines 194-199). -/
structure Sent where
  text : Str
  score : ℚ
  source : String
  position : Nat
deriving Repr, DecidableEq

/-- The typed stage context for the fixed pipeline: the keys the concrete
agents read and write.  `none` models an absent key; each read goes
through the same default the Python `.get` call uses. -/
structure CtxCore where
  search_results : List SRec := []
  query : Str := []
  language : String := "english"
  processed_results : Option (List PRec) := none
  analyzed_sentences : Option (List Sent) := none
  themes : Option (List (Str × Nat)) := none
  entities : Option (List Str) := none
  key_insights : Option (List Str) := none
  generated_summary : Option Str := none
  summary_sentences : Option (List Sent) := none
  final_summary : Option Str := none
  quality_score : Option ℚ := none
  critic_suggestions : Option (List String) := none
deriving Repr, DecidableEq

/-- The full context: `parallel_results` holds, per child name, either the
child's resulting context or the captured error string.  The children of
the one parallel phase never write `parallel_results` themselves, so their
results are stored as `CtxCore`. -/
structure Ctx extends CtxCore where
  parallel_results : Option (List (String × Except String CtxCore)) := none

/-! ## DataFetcherAgent -/

namespace DataFetcher

/-- `https?://` prefix match followed by the greedy `\S+`: returns the
remainder after the whole URL match, or `none` if the regex does not
match at this position. -/
def urlMatchRest (s : Str) : Option Str :=
  let after :=
    if s.take 8 = lit "https://" then some (s.drop 8)
    else if s.take 7 = lit "http://" then some (s.drop 7)
    else none
  match after with
  | some r =>
    let run := r.takeWhile (fun c => !isPySpace c)
    if run.isEmpty then none else some (r.drop run.length)
  | none => none

/-- `re.sub(r'https?://\S+', '', text)`, scanning left to right.  The
fuel argument only serves termination; `fuel ≥ s.length` always suffices
because every step consumes at least one character. -/
def removeURLsAux : Nat → Str → Str
  | 0, _ => []
  | _, [] => []
  | fuel + 1, c :: rest =>
    match urlMatchRest (c :: rest) with
    | some r => removeURLsAux fuel r
    | none => c :: removeURLsAux fuel rest

def removeURLs (s : Str) : Str := removeURLsAux s.length s

/-- `DataFetcherAgent._clean_text` (lines 141-147): collapse whitespace,
strip URLs, strip ends. -/
def clean_text (t : Str) : Str := pyStrip (removeURLs (collapseWS t))

/-- `DataFetcherAgent._calculate_initial_relevance` (lines 149-163).
Note that `word in title` is Python substring containment, and
`query_words` is a set, hence the dedup. -/
def calculate_initial_relevance (r : SRec) (query : Str) : ℚ :=
  let title := lowerStr r.title
  let snippet := lowerStr r.snippet
  let query_words := (pyWords (lowerStr query)).dedup
  let title_matches := (query_words.filter (fun w => isSubstring w title)).length
  let snippet_matches := (query_words.filter (fun w => isSubstring w snippet)).length
  if query_words.length = 0 then 1/2
  else pyMin (((title_matches : ℚ) * 2 + snippet_matches) / (query_words.length * 3)) 1

/-- The processing loop of `DataFetcherAgent.run_async` (lines 124-133),
with `idx` the running `enumerate` index. -/
def prepareResults (query : Str) : Nat → List SRec → List PRec
  | _, [] => []
  | idx, r :: rs =>
    { title := clean_text r.title
      snippet := clean_text r.snippet
      source := r.source
      position := idx
      relevance_score := calculate_initial_relevance r query } ::
      prepareResults query (idx + 1) rs

/-- `DataFetcherAgent.run_async` (lines 115-139). -/
def run_async (ctx : Ctx) : Except String Ctx :=
  Except.ok { ctx with
    processed_results := some (prepareResults ctx.query 0 ctx.search_results) }

end DataFetcher

/-! ## ContentAnalyzerAgent -/

namespace ContentAnalyzer

/-- `ContentAnalyzerAgent._extract_sentences` (lines 218-221): split on
the Latin and Indic sentence terminators, strip, drop empties. -/
def extract_sentences (text : Str) : List Str :=
  ((splitOnPred (fun c => c = '.' || c = '!' || c = '?' || c = '।' || c = '॥')
    text).map pyStrip).filter (fun s => !s.isEmpty)

/-- `ContentAnalyzerAgent._score_sentence` (lines 223-244).  No stop-word
filtering happens here: the raw lowercased whitespace tokens of query and
sentence are intersected as sets. -/
def score_sentence (sentence query : Str) (position : Nat) (language : String) : ℚ :=
  let position_score := pyMax 0 ((5 - (position : ℚ)) / 5) * (3/10)
  let words := pyWords sentence
  let length_score := pyMin ((words.length : ℚ) / 15) 1 * (1/5)
  let query_words := (pyWords (lowerStr query)).dedup
  let sentence_words := (pyWords (lowerStr sentence)).dedup
  let base := position_score + length_score
  let score :=
    if query_words.isEmpty then base
    else base +
      ((query_words.filter (fun w => sentence_words.contains w)).length : ℚ) /
        query_words.length * (1/2)
  let _ := language
  pyMin score 1

/-- The per-language stop-word tables of
`ContentAnalyzerAgent._extract_themes` (lines 252-257). -/
def stop_words (language : String) : List Str :=
  (([("english", ["the", "a", "an", "and", "or", "but", "in", "on", "at",
                  "to", "for", "of", "with", "by"]),
     ("hindi", ["का", "के", "को", "में", "और", "या", "से", "पर", "है", "हैं"]),
     ("telugu", ["మరియు", "లేదా", "లో", "పై", "కోసం", "తో", "ఇది", "అది"]),
     ("marathi", ["आणि", "किंवा", "मध्ये", "वर", "साठी", "सोबत", "हे", "ते"])]
    : List (String × List String)).lookup language).getD [] |>.map lit

/-- `ContentAnalyzerAgent._extract_themes` (lines 246-260): `\w+` tokens
of the lowercased sentence, keep length > 3 and not a stop word (for an
unknown language the stop-word lookup yields the empty set), take 3. -/
def extract_themes (sentence : Str) (language : String) : List Str :=
  ((findWordTokens (lowerStr sentence)).filter
    (fun w => 3 < w.length && !(stop_words language).contains w)).take 3

/-- `re.findall(r'\b[A-Z][a-z]+\b', sentence)`
(`ContentAnalyzerAgent._extract_entities`, lines 262-266): an uppercase
ASCII letter at a word boundary followed by a maximal nonempty run of
lowercase ASCII letters, itself followed by a word boundary.  `prev` is
the character before the scan position; the fuel only serves termination
(`fuel ≥ s.length` suffices). -/
def entitiesAux : Nat → Option Char → Str → List Str
  | 0, _, _ => []
  | _, _, [] => []
  | fuel + 1, prev, c :: rest =>
    let prevIsWord := match prev with
      | some p => isWordChar p
      | none => false
    let run := rest.takeWhile (fun d => 'a' ≤ d && d ≤ 'z')
    let after := rest.drop run.length
    let afterIsWord := match after with
      | d :: _ => isWordChar d
      | [] => false
    if !prevIsWord && ('A' ≤ c && c ≤ 'Z') && !run.isEmpty && !afterIsWord then
      (c :: run) :: entitiesAux fuel (some (run.getLastD c)) after
    else
      entitiesAux fuel (some c) rest

def extract_entities (sentence : Str) : List Str :=
  entitiesAux sentence.length none sentence

/-- `collections.Counter.update` for one token: bump an existing entry in
place or append a new one (Counter preserves first-insertion order). -/
def counterAdd (c : List (Str × Nat)) (w : Str) : List (Str × Nat) :=
  if c.any (fun p => p.1 = w) then
    c.map (fun p => if p.1 = w then (p.1, p.2 + 1) else p)
  else c ++ [(w, 1)]

/-- `Counter.most_common(n)`: stable descending order by count, top `n`. -/
def mostCommon (c : List (Str × Nat)) (n : Nat) : List (Str × Nat) :=
  (stableSortDesc (fun a b => a.2 < b.2) c).take n

/-- One result's contribution inside the analysis loop
(lines 187-205): accumulated scored sentences, theme counter and entity
list. -/
def analyzeStep (query : Str) (language : String)
    (acc : List Sent × List (Str × Nat) × List Str) (r : PRec) :
    List Sent × List (Str × Nat) × List Str :=
  let content := r.title ++ lit ". " ++ r.snippet
  (extract_sentences content).foldl
    (fun acc2 sentence =>
      if 4 < (pyWords sentence).length then
        (acc2.1 ++ [{ text := sentence
                      score := score_sentence sentence query r.position language
                      source := r.source
                      position := r.position }],
         (extract_themes sentence language).foldl counterAdd acc2.2.1,
         acc2.2.2 ++ extract_entities sentence)
      else acc2) acc

/-- `ContentAnalyzerAgent.run_async` (lines 174-216).  `list(set(...))`
has unspecified order in Python (string hashing is randomised); it is
embedded as `dedup`, which is order-faithful for everything downstream
code reads from it (membership, emptiness and length). -/
def run_async (ctx : Ctx) : Except String Ctx :=
  let processed := ctx.processed_results.getD []
  let acc := processed.foldl (analyzeStep ctx.query ctx.language) ([], [], [])
  Except.ok { ctx with
    analyzed_sentences := some (stableSortDesc (fun a b => a.score < b.score) acc.1)
    themes := some (mostCommon acc.2.1 10)
    entities := some acc.2.2.dedup }

end ContentAnalyzer

/-! ## SummaryGeneratorAgent -/

namespace SummaryGenerator

/-- `SummaryGeneratorAgent._extract_themes_from_text` (lines 330-333):
`\w+` tokens of the lowered text of length > 4, first three. -/
def extract_themes_from_text (text : Str) : List Str :=
  ((findWordTokens (lowerStr text)).filter (fun w => 4 < w.length)).take 3

/-- The selection loop of
`SummaryGeneratorAgent._select_summary_sentences` (lines 307-328),
threading the accumulators the Python loop keeps: `selected`,
`used_sources` and `theme_coverage` (the two sets carried as lists with
membership semantics). -/
def selectLoop : List Sent → List Sent → List String → List Str → List Sent
  | [], selected, _, _ => selected
  | c :: rest, selected, used_sources, theme_coverage =>
    if 3 ≤ selected.length then selected
    else
      let sentence_themes := extract_themes_from_text c.text
      let source_diversity := !used_sources.contains c.source || selected.length < 2
      let theme_diversity :=
        !theme_coverage.any (fun t => sentence_themes.contains t) || selected.length < 2
      if source_diversity && (theme_diversity || decide ((7 : ℚ)/10 < c.score)) then
        selectLoop rest (selected ++ [c]) (c.source :: used_sources)
          (theme_coverage ++ sentence_themes)
      else selectLoop rest selected used_sources theme_coverage

/-- `SummaryGeneratorAgent._select_summary_sentences` (lines 302-328).
The `themes` parameter is accepted, as in the source, and never read. -/
def select_summary_sentences (sentences : List Sent) (themes : List (Str × Nat)) :
    List Sent :=
  let _ := themes
  if sentences.isEmpty then [] else selectLoop (sentences.take 10) [] [] []

/-- `SummaryGeneratorAgent._get_no_content_message` (lines 374-382). -/
def get_no_content_message (language : String) : Str :=
  ((([("hindi", "पर्याप्त सामग्री उपलब्ध नहीं है।"),
      ("telugu", "తగిన కంటెంట్ అందుబాటులో లేదు।"),
      ("marathi", "पुरेशी सामग्री उपलब्ध नाही।"),
      ("english", "Insufficient content available.")]
     : List (String × String)).lookup language).getD
    "Insufficient content available.") |> lit

/-- The ellipsis marker the truncation appends (line 358). -/
def ellipsisMarker : Str := lit "..."

/-- The sentence-boundary cut loop of
`SummaryGeneratorAgent._compose_summary` (lines 351-355): walk the
`'.'`-separated pieces, stop before the piece that would push the
accumulated cut past 400 characters, re-appending `". "` after each kept
piece. -/
def truncLoop : List Str → Str → Str
  | [], cut => cut
  | p :: rest, cut =>
    if 400 < (cut ++ p).length then cut else truncLoop rest (cut ++ p ++ lit ". ")

/-- Python `str.endswith('.')` (on the embedded strings). -/
def endsWithDot (s : Str) : Bool := s.getLast? = some '.'

/-- `SummaryGeneratorAgent._compose_summary` (lines 335-360). -/
def compose_summary (sentences : List Sent) (language : String) : Str :=
  if sentences.isEmpty then get_no_content_message language
  else
    let summary :=
      collapseWS (List.intercalate [' '] (sentences.map (fun s => pyStrip s.text)))
    if 400 < summary.length then
      let cut := pyStrip (truncLoop (splitOnPred (fun c => c = '.') summary) [])
      if endsWithDot cut then cut else cut ++ ellipsisMarker
    else summary

/-- `SummaryGeneratorAgent._format_summary_for_language` (lines 362-372):
prepend the per-language label, english label for unknown tags. -/
def format_summary_for_language (summary : Str) (language : String) : Str :=
  (((([("hindi", "📝 **AI सारांश**: "),
       ("telugu", "📝 **AI సారాంశం**: "),
       ("marathi", "📝 **AI सारांश**: "),
       ("english", "📝 **AI Summary**: ")]
      : List (String × String)).lookup language).getD
     "📝 **AI Summary**: ") |> lit) ++ summary

/-- `SummaryGeneratorAgent.run_async` (lines 277-300). -/
def run_async (ctx : Ctx) : Except String Ctx :=
  let analyzed := ctx.analyzed_sentences.getD []
  let themes := ctx.themes.getD []
  let selected := select_summary_sentences analyzed themes
  let summary_text := compose_summary selected ctx.language
  Except.ok { ctx with
    generated_summary := some (format_summary_for_language summary_text ctx.language)
    summary_sentences := some selected }

end SummaryGenerator

/-! ## CriticAgent -/

namespace Critic

/-- `CriticAgent._analyze_summary_quality` (lines 419-446). -/
def analyze_summary_quality (summary query : Str) (themes : List (Str × Nat)) : ℚ :=
  if summary.isEmpty then 0
  else
    let length := summary.length
    let lengthScore : ℚ :=
      if 100 ≤ length ∧ length ≤ 500 then 3/10
      else if 50 < length then 3/20 else 0
    let query_words := (pyWords (lowerStr query)).dedup
    let summary_words := (pyWords (lowerStr summary)).dedup
    let queryScore : ℚ :=
      if query_words.isEmpty then 0
      else ((query_words.filter (fun w => summary_words.contains w)).length : ℚ) /
        query_words.length * (2/5)
    let theme_words := (themes.map Prod.fst).dedup
    let themeScore : ℚ :=
      if themes.isEmpty then 0
      else ((theme_words.filter (fun w => summary_words.contains w)).length : ℚ) /
        theme_words.length * (3/10)
    pyMin (lengthScore + queryScore + themeScore) 1

/-- `CriticAgent._generate_improvement_suggestions` (lines 448-465). -/
def generate_improvement_suggestions (summary query : Str) : List String :=
  (if summary.length < 50 then ["summary_too_short"]
   else if 600 < summary.length then ["summary_too_long"] else []) ++
  (let query_words := (pyWords (lowerStr query)).dedup
   let summary_words := (pyWords (lowerStr summary)).dedup
   if !query_words.isEmpty ∧
      (query_words.filter (fun w => summary_words.contains w)).isEmpty then
     ["low_query_relevance"]
   else [])

/-- The per-language caveat table of `CriticAgent._apply_improvements`
(lines 480-486). -/
def limited_info_caveat (language : String) : Str :=
  ((([("hindi", " (सीमित जानकारी के आधार पर)"),
      ("telugu", " (పరిమిత సమాచారం ఆధారంగా)"),
      ("marathi", " (मर्यादित माहितीच्या आधारावर)"),
      ("english", " (based on limited information)")]
     : List (String × String)).lookup language).getD
    " (based on limited information)") |> lit

/-- `CriticAgent._apply_improvements` (lines 467-489). -/
def apply_improvements (summary : Str) (suggestions : List String)
    (language : String) : Str :=
  if suggestions.contains "summary_too_long" then
    let sentences := splitOnPred (fun c => c = '.') summary
    if 3 < sentences.length then
      List.intercalate (lit ". ") (sentences.take 3) ++ lit "."
    else summary
  else if suggestions.contains "summary_too_short" then
    summary ++ limited_info_caveat language
  else summary

/-- `CriticAgent.run_async` (lines 393-417). -/
def run_async (ctx : Ctx) : Except String Ctx :=
  let summary := ctx.generated_summary.getD []
  let themes := ctx.themes.getD []
  let suggestions := generate_improvement_suggestions summary ctx.query
  Except.ok { ctx with
    final_summary := some (apply_improvements summary suggestions ctx.language)
    quality_score := some (analyze_summary_quality summary ctx.query themes)
    critic_suggestions := some suggestions }

end Critic

/-! ## InsightExtractorAgent -/

namespace InsightExtractor

/-- `InsightExtractorAgent._format_themes_insight` (lines 536-547). -/
def format_themes_insight (themes : List Str) (language : String) : Str :=
  let theme_text := List.intercalate (lit ", ") themes
  (((([("hindi", "🔍 **मुख्य विषय**: "),
       ("telugu", "🔍 **ముఖ్య విషయాలు**: "),
       ("marathi", "🔍 **मुख्य विषय**: "),
       ("english", "🔍 **Key Topics**: ")]
      : List (String × String)).lookup language).getD
     "🔍 **Key Topics**: ") |> lit) ++ theme_text

/-- `InsightExtractorAgent._format_source_insight` (lines 549-558). -/
def format_source_insight (count : Nat) (language : String) : Str :=
  match language with
  | "hindi" => lit "📊 **स्रोत विविधता**: " ++ lit (toString count) ++
      lit " विभिन्न स्रोतों से जानकारी"
  | "telugu" => lit "📊 **మూల వైవిధ్యం**: " ++ lit (toString count) ++
      lit " వేర్వేరు మూలాల నుండి సమాచారం"
  | "marathi" => lit "📊 **स्रोत विविधता**: " ++ lit (toString count) ++
      lit " वेगवेगळ्या स्रोतांकडून माहिती"
  | _ => lit "📊 **Source Diversity**: Information from " ++
      lit (toString count) ++ lit " different sources"

/-- `InsightExtractorAgent._format_entity_insight` (lines 560-571). -/
def format_entity_insight (entities : List Str) (language : String) : Str :=
  let entity_text := List.intercalate (lit ", ") entities
  (((([("hindi", "🏷️ **मुख्य संस्थाएं**: "),
       ("telugu", "🏷️ **ముఖ్య సంస్థలు**: "),
       ("marathi", "🏷️ **मुख्य संस्था**: "),
       ("english", "🏷️ **Key Entities**: ")]
      : List (String × String)).lookup language).getD
     "🏷️ **Key Entities**: ") |> lit) ++ entity_text

/-- `InsightExtractorAgent.run_async` (lines 500-534): up to three
insights — top themes when the theme table is nonempty, source diversity
when more than one distinct source, entities when any were found. -/
def run_async (ctx : Ctx) : Except String Ctx :=
  let themes := ctx.themes.getD []
  let entities := ctx.entities.getD []
  let processed := ctx.processed_results.getD []
  let lang := ctx.language
  let themeInsights :=
    if themes.isEmpty then []
    else [format_themes_insight ((themes.map Prod.fst).take 5) lang]
  let sources := processed.map (fun r => r.source)
  let unique_sources := sources.dedup.length
  let sourceInsights :=
    if 1 < unique_sources then [format_source_insight unique_sources lang] else []
  let entityInsights :=
    if entities.isEmpty then []
    else [format_entity_insight (entities.take 3) lang]
  Except.ok { ctx with
    key_insights := some (themeInsights ++ sourceInsights ++ entityInsights) }

end InsightExtractor

/-! ## AgenticSummarizer coordinator -/

namespace AgenticSummarizer

/-- Lift a pure (never-mutating) stage into the composer stage type.  All
five concrete agents only rebind keys of their own context and build
fresh values, so they leave the shared state untouched. -/
def liftE (f : Ctx → Except String Ctx) : SeqStage Ctx Unit :=
  fun c s => (f c, s)

/-- The children of the `AnalysisPhase` `ParallelAgent`
(`_setup_workflow`, lines 597-603), keyed by agent name. -/
def analysisChildren : List (String × SeqStage Ctx Unit) :=
  [("ContentAnalyzer", liftE ContentAnalyzer.run_async),
   ("InsightExtractor", liftE InsightExtractor.run_async)]

/-- The `AnalysisPhase` `ParallelAgent.run_async` instantiated at the
typed pipeline context: collect both children's outcomes from the same
incoming context and merge them under `parallel_results` (line 100).  The
children never write `parallel_results`, so their results are stored as
`CtxCore`. -/
def analysisPhase (ctx : Ctx) : Except String Ctx :=
  if analysisChildren.isEmpty then Except.ok ctx
  else
    let c := parCollect analysisChildren ctx ()
    Except.ok { ctx with
      parallel_results :=
        some (c.1.map (fun p => (p.1, p.2.map Ctx.toCtxCore))) }

/-- The `GenerationPhase` `SequentialAgent` (lines 606-611). -/
def generationPhase (ctx : Ctx) : Except String Ctx :=
  (seqRun [liftE SummaryGenerator.run_async, liftE Critic.run_async] ctx ()).1

/-- The `MainWorkflow` `SequentialAgent` (lines 613-620). -/
def mainWorkflow (ctx : Ctx) : Except String Ctx :=
  (seqRun [liftE DataFetcher.run_async, liftE analysisPhase, liftE generationPhase]
    ctx ()).1

/-- The diagnostic block of `_compile_final_result` (lines 661-667). -/
structure ExecDetails where
  themes_found : Nat
  entities_found : Nat
  sentences_analyzed : Nat
  critic_suggestions : List String
  workflow_stages : List String
deriving Repr, DecidableEq

/-- The result record the coordinator returns (lines 651-668, 681-692 and
727-737 share this shape). -/
structure SummaryRec where
  query : Str
  language : String
  ai_summary : Str
  key_insights : List Str
  confidence_score : ℚ
  source_count : Nat
  sources : List String
  summarization_method : String
  execution_details : Option ExecDetails := none
  error : Option String := none
deriving Repr, DecidableEq

/-- Reading a field out of one recorded parallel outcome the way
`parallel_results.get(name, \x7b\x7d).get(key, default)` does: an absent
entry or a captured error dictionary yields the default. -/
def prGet (entry : Option (Except String CtxCore)) (f : CtxCore → Option α)
    (d : α) : α :=
  match entry with
  | some (Except.ok c) => (f c).getD d
  | _ => d

/-- `AgenticSummarizer._compile_final_result` (lines 643-668). -/
def compile_final_result (ctx : Ctx) : SummaryRec :=
  let parallel_results := ctx.parallel_results.getD []
  let content_analysis := parallel_results.lookup "ContentAnalyzer"
  let insight_extraction := parallel_results.lookup "InsightExtractor"
  let processed := ctx.processed_results.getD []
  { query := ctx.query
    language := ctx.language
    ai_summary := ctx.final_summary.getD []
    key_insights := prGet insight_extraction (fun c => c.key_insights) []
    confidence_score := ctx.quality_score.getD 0
    source_count := processed.length
    sources := (processed.take 3).map (fun r => r.source)
    summarization_method := "multi_agent_agentic"
    execution_details := some
      { themes_found := (prGet content_analysis (fun c => c.themes) []).length
        entities_found := (prGet content_analysis (fun c => c.entities) []).length
        sentences_analyzed :=
          (prGet content_analysis (fun c => c.analyzed_sentences) []).length
        critic_suggestions := ctx.critic_suggestions.getD []
        workflow_stages := ["fetch", "analyze", "generate", "critique"] } }

/-- The per-language error messages of `_generate_error_result`
(lines 674-679). -/
def error_message (language : String) : Str :=
  ((([("hindi", "📝 **AI सारांश**: तकनीकी समस्या के कारण सारांश नहीं बना सका।"),
      ("telugu", "📝 **AI సారాంశం**: సాంకేతిక సమస్య కారణంగా సారాంశం రూపొందించలేకపోయాం।"),
      ("marathi", "📝 **AI सारांश**: तांत्रिक समस्येमुळे सारांश तयार करू शकलो नाही।"),
      ("english", "📝 **AI Summary**: Unable to generate summary due to technical issues.")]
     : List (String × String)).lookup language).getD
    "📝 **AI Summary**: Unable to generate summary due to technical issues.") |> lit

/-- `AgenticSummarizer._generate_error_result` (lines 670-692). -/
def generate_error_result (ctx : Ctx) (error : String) : SummaryRec :=
  { query := ctx.query
    language := ctx.language
    ai_summary := error_message ctx.language
    key_insights := []
    confidence_score := 0
    source_count := 0
    sources := []
    summarization_method := "error_fallback"
    error := some error }

/-- `AgenticSummarizer.run_async` (lines 622-641) with the workflow it
wraps abstracted: the `try`/`except` around the workflow and the result
compilation turns any internal workflow failure into
`_generate_error_result`. -/
def run_async_with (workflow : Ctx → Except String Ctx) (ctx : Ctx) : SummaryRec :=
  match workflow ctx with
  | Except.ok c => compile_final_result c
  | Except.error e => generate_error_result ctx e

/-- `AgenticSummarizer.run_async` applied to the fixed main workflow. -/
def run_async (ctx : Ctx) : SummaryRec := run_async_with mainWorkflow ctx

/-- The per-language no-results messages of
`_generate_no_results_summary` (lines 720-725). -/
def no_results_message (language : String) : Str :=
  ((([("hindi", "📝 **AI सारांश**: इस विषय पर वर्तमान में जानकारी उपलब्ध नहीं है।"),
      ("telugu", "📝 **AI సారాంశం**: ఈ విషయంపై ప్రస్తుతం సమాచారం అందుబాటులో లేదు।"),
      ("marathi", "📝 **AI सारांश**: या विषयावर सध्या माहिती उपलब्ध नाही।"),
      ("english", "📝 **AI Summary**: Information on this topic is currently not available.")]
     : List (String × String)).lookup language).getD
    "📝 **AI Summary**: Information on this topic is currently not available.") |> lit

/-- `AgenticSummarizer._generate_no_results_summary` (lines 718-737). -/
def generate_no_results_summary (query : Str) (language : String) : SummaryRec :=
  { query := query
    language := language
    ai_summary := no_results_message language
    key_insights := []
    confidence_score := 0
    source_count := 0
    sources := []
    summarization_method := "no_results_fallback" }

/-- `AgenticSummarizer.summarize_search_results` (lines 694-716): empty
input short-circuits to the no-results record before any agent runs;
otherwise the context is built from the first `max_results` results and
handed to the workflow. -/
def summarize_search_results (search_results : List SRec) (query : Str)
    (language : String) (max_results : Nat) : SummaryRec :=
  if search_results.isEmpty then generate_no_results_summary query language
  else run_async
    { search_results := search_results.take max_results
      query := query
      language := language }

end AgenticSummarizer

/-! ## AISearchSummarizer (the heuristic path) — the pieces the claims
reference (`ai_summarizer.py`) -/

namespace AISummarizer

/-- The `scoring_weights` and `stop_words` tables of
`AISearchSummarizer.__init__` (lines 24-36); unknown tags fall back to
the empty set (`self.stop_words.get(language, set())`, line 125). -/
def stop_words (language : String) : List Str :=
  (([("english", ["the", "a", "an", "and", "or", "but", "in", "on", "at",
                  "to", "for", "of", "with", "by"]),
     ("hindi", ["का", "के", "को", "में", "और", "या", "से", "पर", "है", "हैं",
                "था", "थे", "यह", "वह"]),
     ("telugu", ["మరియు", "లేదా", "లో", "పై", "కోసం", "తో", "ఇది", "అది",
                 "ఉంది", "ఉన్నారు"]),
     ("marathi", ["आणि", "किंवा", "मध्ये", "वर", "साठी", "सोबत", "हे", "ते",
                  "आहे", "आहेत"])]
    : List (String × List String)).lookup language).getD [] |>.map lit

/-- `AISearchSummarizer._score_sentence` (lines 109-136): weights
0.4/0.3/0.3, position factor `(3-position)/3`, length factor
`min(words/20, 1)`, and keyword overlap computed after removing the
language's stop words from both sides. -/
def score_sentence (sentence query : Str) (position : Nat) (language : String) : ℚ :=
  let position_score := (3 - (position : ℚ)) / 3 * (2/5)
  let words := pyWords sentence
  let length_score := pyMin ((words.length : ℚ) / 20) 1 * (3/10)
  let sw := stop_words language
  let query_words :=
    ((pyWords (lowerStr query)).dedup).filter (fun w => !sw.contains w)
  let sentence_words :=
    ((pyWords (lowerStr sentence)).dedup).filter (fun w => !sw.contains w)
  let base := position_score + length_score
  let score :=
    if query_words.isEmpty then base
    else base +
      ((query_words.filter (fun w => sentence_words.contains w)).length : ℚ) /
        query_words.length * (3/10)
  pyMin score 1

/-- `AISearchSummarizer._get_default_message` (lines 385-410). -/
def get_default_message (language : String) (message_type : String) : Str :=
  let table : List (String × List (String × String)) :=
    [("hindi",
      [("no_results", "📝 **AI सारांश**: इस विषय पर वर्तमान में जानकारी उपलब्ध नहीं है।"),
       ("no_content", "📝 **AI सारांश**: पर्याप्त सामग्री उपलब्ध नहीं है।"),
       ("processing_error", "📝 **AI सारांश**: जानकारी प्रसंस्करण में समस्या हुई।")]),
     ("telugu",
      [("no_results", "📝 **AI సారాంశం**: ఈ విషయంపై ప్రస్తుతం సమాచారం అందుబాటులో లేదు।"),
       ("no_content", "📝 **AI సారాంశం**: తగిన కంటెంట్ అందుబాటులో లేదు।"),
       ("processing_error", "📝 **AI సారాంశం**: సమాచార ప్రాసెసింగ్‌లో సమస్య.")]),
     ("marathi",
      [("no_results", "📝 **AI सारांश**: या विषयावर सध्या माहिती उपलब्ध नाही।"),
       ("no_content", "📝 **AI सारांश**: पुरेशी सामग्री उपलब्ध नाही।"),
       ("processing_error", "📝 **AI सारांश**: माहिती प्रक्रियेत समस्या.")]),
     ("english",
      [("no_results", "📝 **AI Summary**: Information on this topic is currently not available."),
       ("no_content", "📝 **AI Summary**: Insufficient content available."),
       ("processing_error", "📝 **AI Summary**: Error in information processing.")])]
  let langTable :=
    (table.lookup language).getD ((table.lookup "english").getD [])
  lit ((langTable.lookup message_type).getD "No information available.")

/-- The heuristic path's result record
(`AISearchSummarizer.summarize_search_results`, lines 64-74 and 371-383). -/
structure AIResult where
  query : Str
  language : String
  ai_summary : Str
  key_insights : List Str
  confidence_score : ℚ
  source_count : Nat
  sources : List String
  summarization_method : String
deriving Repr, DecidableEq

/-- `AISearchSummarizer._generate_no_results_summary` (lines 371-383). -/
def generate_no_results_summary (query : Str) (language : String) : AIResult :=
  { query := query
    language := language
    ai_summary := get_default_message language "no_results"
    key_insights := []
    confidence_score := 0
    source_count := 0
    sources := []
    summarization_method := "fallback" }

end AISummarizer

/-! ## The hybrid orchestrator surface -/

namespace Hybrid

/-- The normalized result shape the spec gives the hybrid entry point
(spec section 3): `approach_used` is one of `heuristic`, `pipeline`,
`no_results`, `error`. -/
structure HybridResult where
  query : Str
  language : String
  summary_text : Str
  key_insights : List Str
  confidence : ℚ
  source_count : Nat
  sources : List String
  approach_used : String
deriving Repr, DecidableEq

/-- Modelled from the spec: the repository's `core/hybrid_summarizer.py`
(the `HybridOrchestrator`) is imported by `api/main.py`,
`core/real_world_data.py` and the tests but is not present under `src/`.
Spec section 4.7: on empty `search_results` the entry point
short-circuits to a `no_results` SummaryResult — `approach_used ==
"no_results"`, `confidence == 0.0`, `source_count == 0` — without
invoking either path. -/
def no_results_result (query : Str) (language : String) : HybridResult :=
  { query := query
    language := language
    summary_text := AgenticSummarizer.no_results_message language
    key_insights := []
    confidence := 0
    source_count := 0
    sources := []
    approach_used := "no_results" }

/-- Modelled from the spec: `summarize(results, query, language, ...)` of
the missing `HybridOrchestrator` — empty input short-circuits to the
no-results record; otherwise the configured selection rule picks the
pipeline or the heuristic path.  Both paths and the selection rule are
parameters, so that theorems about the empty-input case hold whatever
they are (neither is invoked there). -/
def summarize
    (pipelinePath heuristicPath : List SRec → Str → String → HybridResult)
    (selectPipeline : List SRec → Str → Bool)
    (results : List SRec) (query : Str) (language : String) : HybridResult :=
  if results.isEmpty then no_results_result query language
  else if selectPipeline results query then pipelinePath results query language
  else heuristicPath results query language

end Hybrid

/-! ## Claims -/

/-- C1: for every query string and language tag, calling the
summarization entry point with an empty results list short-circuits
without invoking either the heuristic or pipeline path (the hybrid entry
point is modelled from the spec, with both paths and the selection rule
as parameters: on empty input the result does not depend on any of them)
and returns a no-results SummaryResult with `approach_used = "no_results"`,
`confidence = 0` and `source_count = 0`.  The in-`src/` entry points agree:
`AgenticSummarizer.summarize_search_results` and the heuristic
summarizer both short-circuit on empty input to their no-results records
with zero confidence and zero sources. -/
theorem no_results_shortcircuit
    (pipelinePath heuristicPath : List SRec → Str → String → Hybrid.HybridResult)
    (selectPipeline : List SRec → Str → Bool) (q : Str) (lang : String) :
    (Hybrid.summarize pipelinePath heuristicPath selectPipeline [] q lang).approach_used
        = "no_results" ∧
    (Hybrid.summarize pipelinePath heuristicPath selectPipeline [] q lang).confidence = 0 ∧
    (Hybrid.summarize pipelinePath heuristicPath selectPipeline [] q lang).source_count = 0 ∧
    Hybrid.summarize pipelinePath heuristicPath selectPipeline [] q lang =
      Hybrid.no_results_result q lang ∧
    AgenticSummarizer.summarize_search_results [] q lang 3 =
      AgenticSummarizer.generate_no_results_summary q lang ∧
    (AgenticSummarizer.summarize_search_results [] q lang 3).confidence_score = 0 ∧
    (AgenticSummarizer.summarize_search_results [] q lang 3).source_count = 0 ∧
    (AgenticSummarizer.summarize_search_results [] q lang 3).summarization_method
        = "no_results_fallback" ∧
    (AISummarizer.generate_no_results_summary q lang).confidence_score = 0 ∧
    (AISummarizer.generate_no_results_summary q lang).source_count = 0 :=
  ⟨rfl, rfl, rfl, rfl, rfl, rfl, rfl, rfl, rfl, rfl⟩

/-- C2: the pipeline entry point never lets an exception escape: for any
context and any internal workflow outcome, `run_async` is a total
function, and whenever the wrapped workflow fails the result is the
error record — a well-formed SummaryResult whose summary text is the
language-appropriate error message and whose confidence is 0. -/
theorem run_async_error_contained (workflow : Ctx → Except String Ctx)
    (ctx : Ctx) (e : String) (h : workflow ctx = Except.error e) :
    AgenticSummarizer.run_async_with workflow ctx =
      AgenticSummarizer.generate_error_result ctx e ∧
    (AgenticSummarizer.run_async_with workflow ctx).confidence_score = 0 ∧
    (AgenticSummarizer.run_async_with workflow ctx).ai_summary =
      AgenticSummarizer.error_message ctx.language := by
  unfold AgenticSummarizer.run_async_with
  rw [h]
  exact ⟨rfl, rfl, rfl⟩

/-- Witness for C2 at a concrete failing workflow. -/
theorem run_async_error_contained_witness :
    ((fun (_ : Ctx) => (Except.error "boom" : Except String Ctx)) ({} : Ctx) =
      Except.error "boom") ∧
    (AgenticSummarizer.run_async_with (fun _ => Except.error "boom") ({} : Ctx) =
      AgenticSummarizer.generate_error_result ({} : Ctx) "boom" ∧
    (AgenticSummarizer.run_async_with (fun _ => Except.error "boom") ({} : Ctx)).confidence_score = 0 ∧
    (AgenticSummarizer.run_async_with (fun _ => Except.error "boom") ({} : Ctx)).ai_summary =
      AgenticSummarizer.error_message ({} : Ctx).language) :=
  ⟨rfl, run_async_error_contained (fun _ => Except.error "boom") {} "boom" rfl⟩

/-- Counterexample to C4: a failing child's error is **not** attached to
the context under an `errors` list with execution continuing — the
sequential composer returns the raw error itself (the exception escapes),
and a stage registered after the failing one (which would have written
the key `ran`) is never executed. -/
theorem seq_failure_escapes_cx :
    seqRun (σ := Unit)
      [fun (_ : PyDict) s => (Except.error "boom", s),
       fun (c : PyDict) s => (Except.ok (setKey c "ran" (PyVal.n 1)), s)]
      [] () = (Except.error "boom", ()) := rfl

/-- C4 (amended): when a child stage raises during
`SequentialAgent.run_async`, the exception propagates immediately out of
the composer — once the stages before it have succeeded, the composer's
result is exactly that error (no remaining stage runs and nothing is
attached to any context). -/
theorem seq_failure_propagates (pre : List (SeqStage Γ σ)) (st : SeqStage Γ σ)
    (rest : List (SeqStage Γ σ)) (ctx ctx₁ : Γ) (s s₁ s₂ : σ) (e : String)
    (hpre : seqRun pre ctx s = (Except.ok ctx₁, s₁))
    (hst : st ctx₁ s₁ = (Except.error e, s₂)) :
    seqRun (pre ++ st :: rest) ctx s = (Except.error e, s₂) := by
  induction pre generalizing ctx s with
  | nil =>
    simp only [seqRun] at hpre
    obtain ⟨h1, h2⟩ := Prod.mk.injEq .. ▸ hpre
    cases h1
    cases h2
    simp only [List.nil_append, seqRun, hst]
  | cons p ps ih =>
    simp only [List.cons_append, seqRun] at hpre ⊢
    rcases hp : p ctx s with ⟨r, s'⟩
    rw [hp] at hpre
    cases r with
    | ok c' => exact ih c' s' hpre
    | error e' =>
      exact absurd (congrArg Prod.fst hpre) (by simp)

/-- Witness for C4's amended theorem at concrete stages. -/
theorem seq_failure_propagates_witness :
    (seqRun (σ := Unit) [fun (c : PyDict) s => (Except.ok c, s)] [] () =
      (Except.ok [], ())) ∧
    ((fun (_ : PyDict) (s : Unit) => ((Except.error "boom" : Except String PyDict), s))
      [] () = (Except.error "boom", ())) ∧
    seqRun (σ := Unit)
      ([fun (c : PyDict) s => (Except.ok c, s)] ++
        (fun (_ : PyDict) (s : Unit) => ((Except.error "boom" : Except String PyDict), s)) ::
        [fun (c : PyDict) s => (Except.ok (setKey c "ran" (PyVal.n 1)), s)])
      [] () = (Except.error "boom", ()) :=
  ⟨rfl, rfl,
    seq_failure_propagates _ _ _ [] [] () () () "boom" rfl rfl⟩

/-- Dictionary lookup at the head key. -/
theorem lookup_cons_self (a : String) (b : PyVal) (l : PyDict) :
    List.lookup a ((a, b) :: l) = some b := by
  simp [List.lookup]

/-- Dictionary lookup skips a head entry with a different key. -/
theorem lookup_cons_ne (k a : String) (b : PyVal) (l : PyDict) (h : k ≠ a) :
    List.lookup k ((a, b) :: l) = List.lookup k l := by
  simp [List.lookup, beq_eq_false_iff_ne.mpr h]

/-- Lookup after the replace-in-place branch of `setKey`, at a different
key. -/
theorem lookup_map_set_ne (d : PyDict) (k' k : String) (v : PyVal)
    (h : k ≠ k') :
    List.lookup k (d.map (fun p => if p.1 = k' then (k', v) else p)) =
      List.lookup k d := by
  induction d with
  | nil => rfl
  | cons p ps ih =>
    obtain ⟨a, b⟩ := p
    simp only [List.map_cons]
    by_cases ha : a = k'
    · subst ha
      rw [if_pos rfl, lookup_cons_ne k a v _ h, lookup_cons_ne k a b _ h]
      exact ih
    · rw [if_neg ha]
      by_cases hk : k = a
      · subst hk
        rw [lookup_cons_self, lookup_cons_self]
      · rw [lookup_cons_ne k a b _ hk, lookup_cons_ne k a b _ hk]
        exact ih

/-- Lookup after the append branch of `setKey`, at a different key. -/
theorem lookup_append_single_ne (d : PyDict) (k' k : String) (v : PyVal)
    (h : k ≠ k') :
    List.lookup k (d ++ [(k', v)]) = List.lookup k d := by
  induction d with
  | nil =>
    simp only [List.nil_append]
    rw [lookup_cons_ne k k' v _ h]
  | cons p ps ih =>
    obtain ⟨a, b⟩ := p
    simp only [List.cons_append]
    by_cases hk : k = a
    · subst hk
      rw [lookup_cons_self, lookup_cons_self]
    · rw [lookup_cons_ne k a b _ hk, lookup_cons_ne k a b _ hk]
      exact ih

/-- Writing one key leaves every other key's lookup unchanged. -/
theorem lookup_setKey_ne (d : PyDict) (k' k : String) (v : PyVal)
    (h : k ≠ k') : (setKey d k' v).lookup k = d.lookup k := by
  unfold setKey
  split
  · exact lookup_map_set_ne d k' k v h
  · exact lookup_append_single_ne d k' k v h

/-- Lookup after the replace-in-place branch of `setKey`, at the written
key, provided the key occurs. -/
theorem lookup_map_set_self (d : PyDict) (k : String) (v : PyVal)
    (hany : (d.any fun p => p.1 = k) = true) :
    List.lookup k (d.map (fun p => if p.1 = k then (k, v) else p)) = some v := by
  induction d with
  | nil => simp at hany
  | cons p ps ih =>
    obtain ⟨a, b⟩ := p
    simp only [List.map_cons]
    by_cases ha : a = k
    · subst ha
      rw [if_pos rfl, lookup_cons_self]
    · have hps : (ps.any fun p => p.1 = k) = true := by
        simp only [List.any_cons, Bool.or_eq_true, decide_eq_true_eq] at hany
        rcases hany with h | h
        · exact absurd h ha
        · simpa using h
      rw [if_neg ha, lookup_cons_ne k a b _ (fun hh => ha hh.symm)]
      exact ih hps

/-- Lookup after the append branch of `setKey`, at the written key,
provided the key does not occur. -/
theorem lookup_append_single_self (d : PyDict) (k : String) (v : PyVal)
    (hany : ¬ (d.any fun p => p.1 = k) = true) :
    List.lookup k (d ++ [(k, v)]) = some v := by
  induction d with
  | nil =>
    simp only [List.nil_append]
    exact lookup_cons_self k v []
  | cons p ps ih =>
    obtain ⟨a, b⟩ := p
    simp only [List.any_cons, Bool.or_eq_true, decide_eq_true_eq, not_or] at hany
    simp only [List.cons_append]
    rw [lookup_cons_ne k a b _ (fun hh => hany.1 hh.symm)]
    exact ih (by simpa using hany.2)

/-- Writing a key makes its lookup return the written value. -/
theorem lookup_setKey_self (d : PyDict) (k : String) (v : PyVal) :
    (setKey d k v).lookup k = some v := by
  unfold setKey
  split
  case isTrue hany => exact lookup_map_set_self d k v hany
  case isFalse hany => exact lookup_append_single_self d k v hany


/-- Counterexample to C5: the copy each child receives is *shallow*
(`context.copy()`), so shared mutable state reached through the copied
bindings is not duplicated.  With child `A` mutating the shared object
(embedded as the threaded `Nat` state) and child `B` recording what it
observes, `B`'s recorded context in `parallel_results` contains `A`'s
write (`observed = 1`), not the value from the state the phase started
with (`observed = 0`, which running `B` alone on the incoming context and
state produces). -/
theorem parallel_shallow_copy_cx :
    ((parRunDict (σ := Nat)
        [("A", fun c n => (Except.ok c, n + 1)),
         ("B", fun c n => (Except.ok (setKey c "observed" (PyVal.n n)), n))]
        [] 0).1).lookup "parallel_results" =
      some (PyVal.dict [("A", PyVal.dict []),
                        ("B", PyVal.dict [("observed", PyVal.n 1)])]) ∧
    ((fun (c : PyDict) (n : Nat) =>
        ((Except.ok (setKey c "observed" (PyVal.n n)) : Except String PyDict), n))
        [] 0).1 = Except.ok [("observed", PyVal.n 0)] ∧
    PyVal.n 1 ≠ PyVal.n 0 := by
  refine ⟨rfl, rfl, fun h => ?_⟩
  injection h with h'
  exact absurd h' (by decide)

/-- C5 (amended): each child of `ParallelAgent.run_async` executes
against a shallow copy of the incoming context — every child receives
the original top-level bindings, unaffected by its siblings' outcomes
(only the shared mutable state is threaded between them) — and after the
merge the outer context's keys are unmodified except for the new
`parallel_results` entry. -/
theorem parallel_merge_frame (children : List (String × SeqStage PyDict σ))
    (ctx : PyDict) (s : σ) (k : String) (hk : k ≠ "parallel_results") :
    ((parRunDict children ctx s).1).lookup k = ctx.lookup k ∧
    ∀ (n₁ n₂ : String) (c₁ c₂ : SeqStage PyDict σ),
      (parCollect [(n₁, c₁), (n₂, c₂)] ctx s).1 =
        [(n₁, (c₁ ctx s).1), (n₂, (c₂ ctx (c₁ ctx s).2).1)] := by
  constructor
  · unfold parRunDict
    split
    · rfl
    · exact lookup_setKey_ne ctx "parallel_results" k _ hk
  · intro n₁ n₂ c₁ c₂
    rfl

/-- Witness for C5's amended theorem at a concrete phase. -/
theorem parallel_merge_frame_witness :
    ("q" ≠ "parallel_results") ∧
    (((parRunDict (σ := Unit)
        [("A", fun (c : PyDict) s => (Except.ok (setKey c "a" (PyVal.n 7)), s))]
        [("q", PyVal.n 0)] ()).1).lookup "q" = [("q", PyVal.n 0)].lookup "q" ∧
     ∀ (n₁ n₂ : String) (c₁ c₂ : SeqStage PyDict Unit),
      (parCollect [(n₁, c₁), (n₂, c₂)] [("q", PyVal.n 0)] ()).1 =
        [(n₁, (c₁ [("q", PyVal.n 0)] ()).1),
         (n₂, (c₂ [("q", PyVal.n 0)] (c₁ [("q", PyVal.n 0)] ()).2).1)]) :=
  ⟨by decide,
    parallel_merge_frame [("A", fun c s => (Except.ok (setKey c "a" (PyVal.n 7)), s))]
      [("q", PyVal.n 0)] () "q" (by decide)⟩

/-- C6: a child of `ParallelAgent.run_async` that raises has its
exception captured as an error-dictionary under its own name in the
merged `parallel_results`, and the failure neither aborts nor alters the
execution of the sibling branches: the siblings' entries are exactly the
outcomes of running the remaining children on the incoming context from
the state the failing child left behind, and they are identical to what
they would have been had the child instead succeeded leaving the same
state. -/
theorem parallel_child_failure_isolated (n : String) (st : SeqStage PyDict σ)
    (rest : List (String × SeqStage PyDict σ)) (ctx : PyDict) (s s₂ : σ)
    (e : String) (h : st ctx s = (Except.error e, s₂)) :
    ((parRunDict ((n, st) :: rest) ctx s).1).lookup "parallel_results" =
      some (PyVal.dict ((n, PyVal.dict [("error", PyVal.s e)]) ::
        (parCollect rest ctx s₂).1.map (fun p => (p.1, outcomeVal p.2)))) ∧
    (parCollect ((n, st) :: rest) ctx s).1 =
      (n, Except.error e) :: (parCollect rest ctx s₂).1 ∧
    ∀ (st' : SeqStage PyDict σ) (c' : PyDict), st' ctx s = (Except.ok c', s₂) →
      ((parCollect ((n, st') :: rest) ctx s).1).tail =
        ((parCollect ((n, st) :: rest) ctx s).1).tail := by
  refine ⟨?_, ?_, ?_⟩
  · unfold parRunDict
    simp only [List.isEmpty_cons, Bool.false_eq_true, if_neg]
    simp only [parCollect, h]
    exact lookup_setKey_self ctx "parallel_results" _
  · simp only [parCollect, h]
  · intro st' c' h'
    simp only [parCollect, h, h', List.tail_cons]

/-- Witness for C6 at a concrete failing child with a live sibling. -/
theorem parallel_child_failure_isolated_witness :
    ((fun (_ : PyDict) (s : Unit) => ((Except.error "boom" : Except String PyDict), s))
      [] () = (Except.error "boom", ())) ∧
    (((parRunDict (σ := Unit)
        [("A", fun _ s => (Except.error "boom", s)),
         ("B", fun (c : PyDict) s => (Except.ok (setKey c "b" (PyVal.n 2)), s))]
        [] ()).1).lookup "parallel_results" =
      some (PyVal.dict (("A", PyVal.dict [("error", PyVal.s "boom")]) ::
        (parCollect [("B", fun (c : PyDict) (s : Unit) =>
            (Except.ok (setKey c "b" (PyVal.n 2)), s))] [] ()).1.map
          (fun p => (p.1, outcomeVal p.2)))) ∧
    (parCollect (σ := Unit)
        [("A", fun _ s => (Except.error "boom", s)),
         ("B", fun (c : PyDict) s => (Except.ok (setKey c "b" (PyVal.n 2)), s))]
        [] ()).1 =
      ("A", Except.error "boom") ::
        (parCollect [("B", fun (c : PyDict) (s : Unit) =>
            (Except.ok (setKey c "b" (PyVal.n 2)), s))] [] ()).1 ∧
    ∀ (st' : SeqStage PyDict Unit) (c' : PyDict),
      st' [] () = (Except.ok c', ()) →
      ((parCollect (("A", st') ::
          [("B", fun (c : PyDict) (s : Unit) =>
            (Except.ok (setKey c "b" (PyVal.n 2)), s))]) [] ()).1).tail =
        ((parCollect (("A", fun (_ : PyDict) (s : Unit) =>
            ((Except.error "boom" : Except String PyDict), s)) ::
          [("B", fun (c : PyDict) (s : Unit) =>
            (Except.ok (setKey c "b" (PyVal.n 2)), s))]) [] ()).1).tail) :=
  ⟨rfl, parallel_child_failure_isolated "A" _ _ [] () () "boom" rfl⟩

/-- The keyword overlap the content analyzer actually uses
(`ContentAnalyzerAgent._score_sentence`): the fraction of distinct
lowercased whitespace-delimited query terms occurring among the
sentence's words, with no stop-word removal (0 when the query has no
terms). -/
def rawKeywordOverlap (query sentence : Str) : ℚ :=
  let query_words := (pyWords (lowerStr query)).dedup
  let sentence_words := (pyWords (lowerStr sentence)).dedup
  if query_words.isEmpty then 0
  else ((query_words.filter (fun w => sentence_words.contains w)).length : ℚ) /
    query_words.length

/-- Claim C8's scoring formula, written from its words (claim-side
definition for comparison): keyword overlap is the fraction of query
terms *after stop-word removal for the request language* that occur in
the sentence, and the composite is clamped to the interval from 0 to 1. -/
def claimed_score_sentence (sentence query : Str) (rank : Nat)
    (language : String) : ℚ :=
  let query_terms := ((pyWords (lowerStr query)).dedup).filter
    (fun w => !(ContentAnalyzer.stop_words language).contains w)
  let sentence_words := (pyWords (lowerStr sentence)).dedup
  let overlap : ℚ :=
    if query_terms.isEmpty then 0
    else ((query_terms.filter (fun w => sentence_words.contains w)).length : ℚ) /
      query_terms.length
  pyMin (pyMax ((3/10) * pyMax 0 ((5 - (rank : ℚ)) / 5) +
      (1/5) * pyMin (((pyWords sentence).length : ℚ) / 15) 1 +
      (1/2) * overlap) 0) 1

/-- Counterexample to C8: the content analyzer's keyword overlap does
*not* remove stop words.  For the query "the temple" on a sentence
containing "the" but not "temple", the code scores 63/100 (the stop word
"the" counts as a hit), while the claimed formula scores 38/100 (after
removing the english stop word "the", the only remaining term "temple"
does not occur). -/
theorem sentence_score_stopwords_cx :
    ContentAnalyzer.score_sentence (lit "he sat inside the big hall")
      (lit "the temple") 0 "english" = 63/100 ∧
    claimed_score_sentence (lit "he sat inside the big hall")
      (lit "the temple") 0 "english" = 38/100 ∧
    ((63 : ℚ)/100) ≠ 38/100 :=
  ⟨by with_unfolding_all decide, by with_unfolding_all decide, by norm_num⟩

/-- C8 (amended): each retained sentence is scored
`0.3·max(0,(5−rank)/5) + 0.2·min(word_count/15,1) + 0.5·keyword_overlap`
clamped above by 1 (it is nonnegative by construction, so it lies in
[0,1]), where `keyword_overlap` is the fraction of distinct raw query
terms — with **no** stop-word removal — that occur among the sentence's
words; the language tag does not influence the score at all. -/
theorem sentence_score_formula (sentence query : Str) (rank : Nat)
    (language : String) :
    ContentAnalyzer.score_sentence sentence query rank language =
      min ((3/10) * max 0 ((5 - (rank : ℚ)) / 5) +
           (1/5) * min (((pyWords sentence).length : ℚ) / 15) 1 +
           (1/2) * rawKeywordOverlap query sentence) 1 ∧
    0 ≤ ContentAnalyzer.score_sentence sentence query rank language ∧
    ContentAnalyzer.score_sentence sentence query rank language ≤ 1 ∧
    ∀ language', ContentAnalyzer.score_sentence sentence query rank language =
      ContentAnalyzer.score_sentence sentence query rank language' := by
  have hb : (0 : ℚ) ≤ (3/10) * max 0 ((5 - (rank : ℚ)) / 5) +
      (1/5) * min (((pyWords sentence).length : ℚ) / 15) 1 +
      (1/2) * rawKeywordOverlap query sentence := by
    have h1 : (0 : ℚ) ≤ (3/10) * max 0 ((5 - (rank : ℚ)) / 5) :=
      mul_nonneg (by norm_num) (le_max_left 0 _)
    have h2 : (0 : ℚ) ≤ (1/5) * min (((pyWords sentence).length : ℚ) / 15) 1 :=
      mul_nonneg (by norm_num)
        (le_min (div_nonneg (Nat.cast_nonneg _) (by norm_num)) zero_le_one)
    have h3 : (0 : ℚ) ≤ (1/2) * rawKeywordOverlap query sentence := by
      refine mul_nonneg (by norm_num) ?_
      unfold rawKeywordOverlap
      by_cases hq : (pyWords (lowerStr query)).dedup.isEmpty = true
      · simp [hq]
      · simp only [hq, if_false]
        positivity
    linarith
  have heq : ContentAnalyzer.score_sentence sentence query rank language =
      min ((3/10) * max 0 ((5 - (rank : ℚ)) / 5) +
           (1/5) * min (((pyWords sentence).length : ℚ) / 15) 1 +
           (1/2) * rawKeywordOverlap query sentence) 1 := by
    unfold ContentAnalyzer.score_sentence rawKeywordOverlap
    simp only [pyMin_eq_min, pyMax_eq_max]
    split
    case isTrue h =>
      congr 1
      ring
    case isFalse h =>
      congr 1
      ring
  refine ⟨heq, ?_, ?_, fun _ => rfl⟩
  · rw [heq]
    exact le_min hb zero_le_one
  · rw [heq]
    exact min_le_right _ _

/-- What `AISearchSummarizer._score_sentence` actually computes when the
stop-word lookup comes back empty: the same composite with no stop-word
removal on either side (the amended claim's reading of the unknown-tag
behaviour). -/
def AISummarizer.score_sentence_nostop (sentence query : Str) (position : Nat) : ℚ :=
  let position_score := (3 - (position : ℚ)) / 3 * (2/5)
  let words := pyWords sentence
  let length_score := pyMin ((words.length : ℚ) / 20) 1 * (3/10)
  let query_words := (pyWords (lowerStr query)).dedup
  let sentence_words := (pyWords (lowerStr sentence)).dedup
  let base := position_score + length_score
  let score :=
    if query_words.isEmpty then base
    else base +
      ((query_words.filter (fun w => sentence_words.contains w)).length : ℚ) /
        query_words.length * (3/10)
  pyMin score 1

/-- Counterexample to C9: for the unknown tag "french", theme extraction
does *not* fall back to the english stop-word table — it falls back to
the empty set, so the english stop word "with" survives as a theme,
unlike under the english table. -/
theorem unknown_language_stopwords_cx :
    ContentAnalyzer.extract_themes (lit "connected with another person here")
      "french" = [lit "connected", lit "with", lit "another"] ∧
    ContentAnalyzer.extract_themes (lit "connected with another person here")
      "english" = [lit "connected", lit "another", lit "person"] ∧
    ContentAnalyzer.extract_themes (lit "connected with another person here")
      "french" ≠
      ContentAnalyzer.extract_themes (lit "connected with another person here")
        "english" := by
  refine ⟨by decide, by decide, ?_⟩
  intro h
  have := (by decide :
    ([lit "connected", lit "with", lit "another"] : List Str) ≠
      [lit "connected", lit "another", lit "person"])
  exact this ((by decide :
    ContentAnalyzer.extract_themes (lit "connected with another person here")
      "french" = [lit "connected", lit "with", lit "another"]) ▸
    (by decide :
    ContentAnalyzer.extract_themes (lit "connected with another person here")
      "english" = [lit "connected", lit "another", lit "person"]) ▸ h)

/-- C9 (amended): an unknown language tag never raises anywhere, but the
fallbacks differ by table kind — every label/message lookup falls back to
the english strings, while the stop-word lookups fall back to the
*empty* set, so theme extraction and the heuristic sentence scorer
perform no stop-word removal at all for unknown tags (rather than using
the english stop words). -/
theorem unknown_language_fallback (language : String)
    (h1 : language ≠ "hindi") (h2 : language ≠ "telugu")
    (h3 : language ≠ "marathi") (h4 : language ≠ "english") :
    ContentAnalyzer.stop_words language = [] ∧
    AISummarizer.stop_words language = [] ∧
    (∀ s, ContentAnalyzer.extract_themes s language =
      ((findWordTokens (lowerStr s)).filter (fun w => 3 < w.length)).take 3) ∧
    (∀ s q p, AISummarizer.score_sentence s q p language =
      AISummarizer.score_sentence_nostop s q p) ∧
    (∀ s, SummaryGenerator.format_summary_for_language s language =
      SummaryGenerator.format_summary_for_language s "english") ∧
    SummaryGenerator.get_no_content_message language =
      SummaryGenerator.get_no_content_message "english" ∧
    AgenticSummarizer.error_message language =
      AgenticSummarizer.error_message "english" ∧
    AgenticSummarizer.no_results_message language =
      AgenticSummarizer.no_results_message "english" ∧
    (∀ t, AISummarizer.get_default_message language t =
      AISummarizer.get_default_message "english" t) := by
  have hca : ContentAnalyzer.stop_words language = [] := by
    unfold ContentAnalyzer.stop_words
    simp [List.lookup, beq_eq_false_iff_ne.mpr h1, beq_eq_false_iff_ne.mpr h2,
      beq_eq_false_iff_ne.mpr h3, beq_eq_false_iff_ne.mpr h4]
  have hai : AISummarizer.stop_words language = [] := by
    unfold AISummarizer.stop_words
    simp [List.lookup, beq_eq_false_iff_ne.mpr h1, beq_eq_false_iff_ne.mpr h2,
      beq_eq_false_iff_ne.mpr h3, beq_eq_false_iff_ne.mpr h4]
  refine ⟨hca, hai, ?_, ?_, ?_, ?_, ?_, ?_, ?_⟩
  · intro s
    unfold ContentAnalyzer.extract_themes
    rw [hca]
    simp [List.contains]
  · intro s q p
    unfold AISummarizer.score_sentence AISummarizer.score_sentence_nostop
    rw [hai]
    simp [List.contains]
  · intro s
    unfold SummaryGenerator.format_summary_for_language
    simp [List.lookup, beq_eq_false_iff_ne.mpr h1, beq_eq_false_iff_ne.mpr h2,
      beq_eq_false_iff_ne.mpr h3, beq_eq_false_iff_ne.mpr h4]
  · unfold SummaryGenerator.get_no_content_message
    simp [List.lookup, beq_eq_false_iff_ne.mpr h1, beq_eq_false_iff_ne.mpr h2,
      beq_eq_false_iff_ne.mpr h3, beq_eq_false_iff_ne.mpr h4]
  · unfold AgenticSummarizer.error_message
    simp [List.lookup, beq_eq_false_iff_ne.mpr h1, beq_eq_false_iff_ne.mpr h2,
      beq_eq_false_iff_ne.mpr h3, beq_eq_false_iff_ne.mpr h4]
  · unfold AgenticSummarizer.no_results_message
    simp [List.lookup, beq_eq_false_iff_ne.mpr h1, beq_eq_false_iff_ne.mpr h2,
      beq_eq_false_iff_ne.mpr h3, beq_eq_false_iff_ne.mpr h4]
  · intro t
    unfold AISummarizer.get_default_message
    simp [List.lookup, beq_eq_false_iff_ne.mpr h1, beq_eq_false_iff_ne.mpr h2,
      beq_eq_false_iff_ne.mpr h3, beq_eq_false_iff_ne.mpr h4]

/-- Witness for C9's amended theorem at the unknown tag "french". -/
theorem unknown_language_fallback_witness :
    (("french" : String) ≠ "hindi") ∧
    (ContentAnalyzer.stop_words "french" = [] ∧
     AISummarizer.stop_words "french" = [] ∧
     (∀ s, ContentAnalyzer.extract_themes s "french" =
       ((findWordTokens (lowerStr s)).filter (fun w => 3 < w.length)).take 3) ∧
     (∀ s q p, AISummarizer.score_sentence s q p "french" =
       AISummarizer.score_sentence_nostop s q p) ∧
     (∀ s, SummaryGenerator.format_summary_for_language s "french" =
       SummaryGenerator.format_summary_for_language s "english") ∧
     SummaryGenerator.get_no_content_message "french" =
       SummaryGenerator.get_no_content_message "english" ∧
     AgenticSummarizer.error_message "french" =
       AgenticSummarizer.error_message "english" ∧
     AgenticSummarizer.no_results_message "french" =
       AgenticSummarizer.no_results_message "english" ∧
     (∀ t, AISummarizer.get_default_message "french" t =
       AISummarizer.get_default_message "english" t)) :=
  ⟨by decide,
    unknown_language_fallback "french" (by decide) (by decide) (by decide) (by decide)⟩

/-- Boolean equality from the corresponding propositional equivalence. -/
theorem bool_eq_of_iff {a b : Bool} (h : a = true ↔ b = true) : a = b := by
  cases a <;> cases b <;> simp_all

/-- Claim C7's acceptance condition, written from its words: the used
sources and covered themes are those of the sentences accepted so far. -/
def claimAccept (c : Sent) (accepted : List Sent) : Bool :=
  let used := accepted.map (fun a => a.source)
  let covered := accepted.flatMap
    (fun a => SummaryGenerator.extract_themes_from_text a.text)
  (!used.contains c.source || accepted.length < 2) &&
  ((!(SummaryGenerator.extract_themes_from_text c.text).any
      (fun t => covered.contains t)) || accepted.length < 2 ||
    decide ((7 : ℚ)/10 < c.score))

/-- Claim C7's selection procedure, written from its words: iterate the
score-sorted candidates capped at the top 10, accept exactly under
`claimAccept`, stop once 3 are accepted. -/
def claimSelectLoop : List Sent → List Sent → List Sent
  | [], acc => acc
  | c :: rest, acc =>
    if 3 ≤ acc.length then acc
    else if claimAccept c acc then claimSelectLoop rest (acc ++ [c])
    else claimSelectLoop rest acc

def claimSelect (sentences : List Sent) : List Sent :=
  claimSelectLoop (sentences.take 10) []

/-- The code's selection loop coincides with the claim's description
whenever the threaded accumulators agree, as sets, with the accepted
list's sources and concatenated themes. -/
theorem selectLoop_eq_claim (cands : List Sent) (acc : List Sent)
    (used : List String) (cov : List Str)
    (hused : ∀ x, x ∈ used ↔ x ∈ acc.map (fun a => a.source))
    (hcov : ∀ t, t ∈ cov ↔ t ∈ acc.flatMap
      (fun a => SummaryGenerator.extract_themes_from_text a.text)) :
    SummaryGenerator.selectLoop cands acc used cov = claimSelectLoop cands acc := by
  induction cands generalizing acc used cov with
  | nil => rfl
  | cons c rest ih =>
    unfold SummaryGenerator.selectLoop claimSelectLoop
    by_cases h3 : 3 ≤ acc.length
    · simp [h3]
    · simp only [if_neg h3]
      have hcond :
          ((!used.contains c.source || decide (acc.length < 2)) &&
            ((!cov.any fun t =>
                (SummaryGenerator.extract_themes_from_text c.text).contains t) ||
              decide (acc.length < 2) || decide ((7 : ℚ)/10 < c.score))) =
          claimAccept c acc := by
        unfold claimAccept
        refine bool_eq_of_iff ?_
        simp only [Bool.and_eq_true, Bool.or_eq_true, Bool.not_eq_true',
          List.contains, List.elem_eq_mem, decide_eq_true_eq,
          decide_eq_false_iff_not, List.any_eq_false, List.any_eq_true,
          hused, hcov]
        constructor
        · rintro ⟨ha, hb⟩
          refine ⟨ha, ?_⟩
          rcases hb with (hb | hb) | hb
          · exact Or.inl (Or.inl (fun t ht hc => hb t hc ht))
          · exact Or.inl (Or.inr hb)
          · exact Or.inr hb
        · rintro ⟨ha, hb⟩
          refine ⟨ha, ?_⟩
          rcases hb with (hb | hb) | hb
          · exact Or.inl (Or.inl (fun t ht hc => hb t hc ht))
          · exact Or.inl (Or.inr hb)
          · exact Or.inr hb
      rw [hcond]
      by_cases hacc : claimAccept c acc = true
      · simp only [hacc, if_pos]
        refine ih (acc ++ [c]) _ _ ?_ ?_
        · intro x
          simp only [List.mem_cons, hused x, List.map_append, List.mem_append,
            List.map_cons, List.map_nil, List.mem_singleton]
          tauto
        · intro t
          simp only [List.mem_append, hcov t, List.flatMap_append,
            List.flatMap_cons, List.flatMap_nil, List.append_nil]
      · simp only [Bool.not_eq_true] at hacc
        simp only [hacc, Bool.false_eq_true, if_neg]
        exact ih acc used cov hused hcov

/-- The selection loop never grows past 3 accepted sentences. -/
theorem claimSelectLoop_length (cands : List Sent) (acc : List Sent)
    (h : acc.length ≤ 3) : (claimSelectLoop cands acc).length ≤ 3 := by
  induction cands generalizing acc with
  | nil => exact h
  | cons c rest ih =>
    unfold claimSelectLoop
    by_cases h3 : 3 ≤ acc.length
    · simpa [h3] using h
    · simp only [if_neg h3]
      by_cases hacc : claimAccept c acc = true
      · simp only [hacc, if_pos]
        refine ih (acc ++ [c]) ?_
        simp only [List.length_append, List.length_singleton]
        omega
      · simp only [Bool.not_eq_true] at hacc
        simp only [hacc, Bool.false_eq_true, if_neg]
        exact ih acc h

/-- The selection loop returns the accepted prefix extended by a
subsequence of the remaining candidates. -/
theorem claimSelectLoop_sublist (cands : List Sent) (acc : List Sent) :
    ∃ t, claimSelectLoop cands acc = acc ++ t ∧ t.Sublist cands := by
  induction cands generalizing acc with
  | nil => exact ⟨[], by simp [claimSelectLoop]⟩
  | cons c rest ih =>
    unfold claimSelectLoop
    by_cases h3 : 3 ≤ acc.length
    · exact ⟨[], by simp [h3]⟩
    · simp only [if_neg h3]
      by_cases hacc : claimAccept c acc = true
      · simp only [hacc, if_pos]
        obtain ⟨t, ht, hs⟩ := ih (acc ++ [c])
        exact ⟨c :: t, by simpa using ht, List.Sublist.cons₂ c hs⟩
      · simp only [Bool.not_eq_true] at hacc
        simp only [hacc, Bool.false_eq_true, if_neg]
        obtain ⟨t, ht, hs⟩ := ih acc
        exact ⟨t, ht, List.Sublist.cons c hs⟩

/-- C7: summary-sentence selection scans at most the top 10 candidates,
accepts a candidate exactly when (its source is unused or fewer than 2
sentences are accepted so far) and (its theme set does not overlap the
covered themes, or fewer than 2 are accepted so far, or its score
exceeds 0.7), and stops once 3 sentences are accepted: the code's
selection equals the claim's procedure, selects at most 3 sentences, and
returns a subsequence of the first 10 candidates (the `themes` table
parameter is never consulted). -/
theorem select_sentences_policy (sentences : List Sent) (themes : List (Str × Nat)) :
    SummaryGenerator.select_summary_sentences sentences themes =
      claimSelect sentences ∧
    (SummaryGenerator.select_summary_sentences sentences themes).length ≤ 3 ∧
    (SummaryGenerator.select_summary_sentences sentences themes).Sublist
      (sentences.take 10) := by
  have heq : SummaryGenerator.select_summary_sentences sentences themes =
      claimSelect sentences := by
    unfold SummaryGenerator.select_summary_sentences claimSelect
    by_cases hs : sentences.isEmpty = true
    · rw [if_pos hs]
      cases sentences with
      | nil => rfl
      | cons a l => simp at hs
    · rw [if_neg hs]
      exact selectLoop_eq_claim (sentences.take 10) [] [] []
        (fun x => by simp) (fun t => by simp)
  refine ⟨heq, ?_, ?_⟩
  · rw [heq]
    exact claimSelectLoop_length (sentences.take 10) [] (by simp)
  · rw [heq]
    obtain ⟨t, ht, hsub⟩ := claimSelectLoop_sublist (sentences.take 10) []
    rw [claimSelect, ht]
    simpa using hsub

/-- Dropping a prefix never lengthens a list. -/
theorem length_dropWhile_le_self (p : Char → Bool) (l : Str) :
    (l.dropWhile p).length ≤ l.length := by
  induction l with
  | nil => simp
  | cons c rest ih =>
    by_cases h : p c
    · simp only [List.dropWhile_cons, h, if_true]
      exact Nat.le_succ_of_le ih
    · simp [List.dropWhile_cons, h]

/-- Stripping never lengthens a string. -/
theorem pyStrip_length_le (s : Str) : (pyStrip s).length ≤ s.length := by
  unfold pyStrip
  rw [List.length_reverse]
  refine le_trans (length_dropWhile_le_self _ _) ?_
  rw [List.length_reverse]
  exact length_dropWhile_le_self _ _

/-- The sentence-boundary cut loop keeps the accumulated cut at no more
than 402 characters: a piece is only appended when the cut plus the
piece is within 400, and the re-appended `". "` adds two more. -/
theorem truncLoop_length (pieces : List Str) (cut : Str)
    (h : cut.length ≤ 402) :
    (SummaryGenerator.truncLoop pieces cut).length ≤ 402 := by
  induction pieces generalizing cut with
  | nil => simpa [SummaryGenerator.truncLoop] using h
  | cons p rest ih =>
    unfold SummaryGenerator.truncLoop
    by_cases hb : 400 < (cut ++ p).length
    · rw [if_pos hb]
      exact h
    · rw [if_neg hb]
      refine ih _ ?_
      have hcp : cut.length + p.length ≤ 400 := by
        simpa [List.length_append] using hb
      have hlit : (lit ". ").length = 2 := rfl
      simp only [List.length_append, hlit]
      omega

/-- The cut accumulated by the loop is either empty or ends in `". "`. -/
theorem truncLoop_shape (pieces : List Str) (cut : Str)
    (h : cut = [] ∨ ∃ x, cut = x ++ lit ". ") :
    SummaryGenerator.truncLoop pieces cut = [] ∨
      ∃ x, SummaryGenerator.truncLoop pieces cut = x ++ lit ". " := by
  induction pieces generalizing cut with
  | nil => simpa [SummaryGenerator.truncLoop] using h
  | cons p rest ih =>
    unfold SummaryGenerator.truncLoop
    by_cases hb : 400 < (cut ++ p).length
    · rw [if_pos hb]
      exact h
    · rw [if_neg hb]
      exact ih _ (Or.inr ⟨cut ++ p, by rw [List.append_assoc]⟩)

/-- Stripping a string that ends in `". "` leaves one that ends in a
period. -/
theorem pyStrip_dotspace_ends (x : Str) :
    SummaryGenerator.endsWithDot (pyStrip (x ++ lit ". ")) = true := by
  unfold pyStrip SummaryGenerator.endsWithDot
  have hfront : ∃ z, (x ++ lit ". ").dropWhile isPySpace = z ++ lit ". " := by
    rw [List.dropWhile_append]
    split
    · exact ⟨[], by decide⟩
    · exact ⟨x.dropWhile isPySpace, rfl⟩
  obtain ⟨z, hz⟩ := hfront
  rw [hz]
  have hrev : (z ++ lit ". ").reverse = ' ' :: '.' :: z.reverse := by
    have : (lit ". ") = ['.', ' '] := rfl
    rw [this, List.reverse_append]
    rfl
  rw [hrev]
  have hdw : (' ' :: '.' :: z.reverse).dropWhile isPySpace = '.' :: z.reverse := by
    rw [List.dropWhile_cons, if_pos (by decide), List.dropWhile_cons,
      if_neg (by decide)]
  rw [hdw]
  rw [List.reverse_cons, List.getLast?_concat]
  decide

/-- The no-content fallback messages all fit the truncation bound. -/
theorem no_content_message_length (language : String) :
    (SummaryGenerator.get_no_content_message language).length ≤ 403 := by
  by_cases h1 : language = "hindi"
  · subst h1
    decide
  by_cases h2 : language = "telugu"
  · subst h2
    decide
  by_cases h3 : language = "marathi"
  · subst h3
    decide
  by_cases h4 : language = "english"
  · subst h4
    decide
  unfold SummaryGenerator.get_no_content_message
  simp only [List.lookup, beq_eq_false_iff_ne.mpr h1, beq_eq_false_iff_ne.mpr h2,
    beq_eq_false_iff_ne.mpr h3, beq_eq_false_iff_ne.mpr h4]
  decide

/-- C3: for any selected sentences and language, the composed summary
(before the language label is attached) is at most 400 characters plus
the ellipsis marker: truncation cuts on a `'.'` boundary keeping at most
402 characters (ending in a period, so no marker is appended), and the
marker alone is produced when even the first piece exceeds the limit. -/
theorem summary_truncation_bound (sentences : List Sent) (language : String) :
    (SummaryGenerator.compose_summary sentences language).length ≤
      400 + SummaryGenerator.ellipsisMarker.length := by
  have hell : SummaryGenerator.ellipsisMarker.length = 3 := rfl
  rw [hell]
  unfold SummaryGenerator.compose_summary
  by_cases hs : sentences.isEmpty = true
  · rw [if_pos hs]
    have := no_content_message_length language
    omega
  · rw [if_neg hs]
    simp only []
    by_cases hlen : 400 <
        (collapseWS (List.intercalate [' ']
          (sentences.map fun s => pyStrip s.text))).length
    · rw [if_pos hlen]
      rcases truncLoop_shape
          (splitOnPred (fun c => c = '.')
            (collapseWS (List.intercalate [' ']
              (sentences.map fun s => pyStrip s.text)))) [] (Or.inl rfl) with
        hnil | ⟨x, hx⟩
      · rw [hnil]
        decide
      · rw [hx]
        rw [if_pos (pyStrip_dotspace_ends x)]
        have h1 : (pyStrip (x ++ lit ". ")).length ≤ (x ++ lit ". ").length :=
          pyStrip_length_le _
        have h2 := truncLoop_length
          (splitOnPred (fun c => c = '.')
            (collapseWS (List.intercalate [' ']
              (sentences.map fun s => pyStrip s.text)))) [] (by simp)
        rw [hx] at h2
        omega
    · rw [if_neg hlen]
      omega

/-- Data preparation preserves each result's source, in order. -/
theorem prepareResults_sources (query : Str) (n : Nat) (rs : List SRec) :
    (DataFetcher.prepareResults query n rs).map (fun r => r.source) =
      rs.map (fun r => r.source) := by
  induction rs generalizing n with
  | nil => rfl
  | cons r rest ih => simp [DataFetcher.prepareResults, ih]

/-- C10: in every successful pipeline run the insight extractor executes
against a context copied before the content analyzer publishes its
results, so it sees an empty theme table and entity list; consequently
the compiled result's `key_insights` never contains the top-themes or
entity insights and is exactly the source-diversity note — present when
the processed results (the first `max_results = 3` inputs) span more
than one distinct source — hence has at most one element. -/
theorem pipeline_insights_isolated (results : List SRec) (q : Str) (lang : String)
    (h : results ≠ []) :
    (AgenticSummarizer.summarize_search_results results q lang 3).key_insights =
      (if 1 < (((results.take 3).map (fun r => r.source)).dedup).length
       then [InsightExtractor.format_source_insight
              ((((results.take 3).map (fun r => r.source)).dedup).length) lang]
       else []) ∧
    (AgenticSummarizer.summarize_search_results results q lang 3).key_insights.length
      ≤ 1 := by
  have hne : results.isEmpty = false := by
    cases results with
    | nil => exact absurd rfl h
    | cons a l => rfl
  have hkey : (AgenticSummarizer.summarize_search_results results q lang 3).key_insights =
      (if 1 < (((results.take 3).map (fun r => r.source)).dedup).length
       then [InsightExtractor.format_source_insight
              ((((results.take 3).map (fun r => r.source)).dedup).length) lang]
       else []) := by
    unfold AgenticSummarizer.summarize_search_results
    simp only [hne, Bool.false_eq_true, if_false]
    simp [AgenticSummarizer.run_async, AgenticSummarizer.run_async_with,
      AgenticSummarizer.mainWorkflow, seqRun, AgenticSummarizer.liftE,
      DataFetcher.run_async, AgenticSummarizer.analysisPhase,
      AgenticSummarizer.analysisChildren, parCollect,
      ContentAnalyzer.run_async, InsightExtractor.run_async,
      AgenticSummarizer.generationPhase, SummaryGenerator.run_async,
      Critic.run_async, AgenticSummarizer.compile_final_result,
      AgenticSummarizer.prGet, List.lookup, Except.map, Option.getD,
      prepareResults_sources]
  refine ⟨hkey, ?_⟩
  rw [hkey]
  split
  · simp
  · simp

/-- Two one-record inputs from distinct sources, for the C10 witness. -/
def twoSourceResults : List SRec :=
  [{ title := lit "a", snippet := lit "b", source := "s1" },
   { title := lit "c", snippet := lit "d", source := "s2" }]

/-- Witness for C10 at two records from distinct sources. -/
theorem pipeline_insights_isolated_witness :
    (twoSourceResults ≠ []) ∧
    ((AgenticSummarizer.summarize_search_results twoSourceResults
        (lit "q") "english" 3).key_insights =
      (if 1 < (((twoSourceResults.take 3).map (fun r => r.source)).dedup).length
       then [InsightExtractor.format_source_insight
              ((((twoSourceResults.take 3).map (fun r => r.source)).dedup).length)
              "english"]
       else []) ∧
    (AgenticSummarizer.summarize_search_results twoSourceResults
        (lit "q") "english" 3).key_insights.length ≤ 1) :=
  ⟨by decide,
    pipeline_insights_isolated twoSourceResults (lit "q") "english" (by decide)⟩
